import Mathlib

/-
Shallow embedding of the MCP client in src/main.py (class MCPClient and main),
together with theorems settling the specification claims about it.

The orchestration function process_query, server selection
(get_server_name_and_config), context acquisition (connect_to_server) and
teardown (cleanup via AsyncExitStack.aclose, main via try/finally) are
translated from the source.  External collaborators (the OpenAI chat
completion call, json.loads, and the mcp library's ClientSession) are
parameters of the embedding; the Session's failure behaviour, whose code is
not part of this repository, is modelled from the specification.
-/

namespace MCP

/-- JSON values, as produced by json.loads and stored in config.json. -/
inductive Json where
  | null
  | bool (b : Bool)
  | num (n : Int)
  | str (s : String)
  | arr (elems : List Json)
  | obj (fields : List (String × Json))
  deriving Repr

/-- A tool descriptor as returned by session.list_tools(): name, description
and inputSchema (mcp.types.Tool fields read at main.py lines 99-106). -/
structure Tool where
  name : String
  description : String
  inputSchema : Json
  deriving Repr

/-- One element of available_tools (main.py lines 99-106): the dict
with keys "type" (always "function") and "function" holding the name,
description and input_schema of one tool. -/
structure RenderedTool where
  callableType : String
  name : String
  description : String
  input_schema : Json
  deriving Repr

/-- The rendering of one tool into a callable-function descriptor, exactly
as the dict comprehension at main.py lines 99-106 builds it. -/
def renderTool (t : Tool) : RenderedTool :=
  { callableType := "function", name := t.name, description := t.description,
    input_schema := t.inputSchema }

/-- The role of a conversation turn. -/
inductive Role where
  | user
  | assistant
  | tool
  deriving Repr, DecidableEq

/-- tool_call.function: the requested tool name and the raw (undecoded)
arguments string. -/
structure ToolCallFn where
  name : String
  arguments : String
  deriving Repr

/-- One tool-invocation request inside a model message: correlation id and
the requested function. -/
structure ToolCall where
  id : String
  function : ToolCallFn
  deriving Repr

/-- A conversation turn, as the dicts appended to messages in process_query:
role, textual content, any tool-invocation requests, and (for tool-result
turns) the correlation token tool_call_id. -/
structure ChatMessage where
  role : Role
  content : Option String
  tool_calls : List ToolCall
  tool_call_id : Option String
  deriving Repr

/-- response.choices[0]: finish_reason plus the model message. -/
structure Choice where
  finish_reason : String
  message : ChatMessage
  deriving Repr

/-- One content block of a tool's result (result.content[i].text is read at
main.py line 131). -/
structure ContentBlock where
  text : String
  deriving Repr

/-- The payload returned by session.call_tool: a list of content blocks and
the protocol's error indicator flag. -/
structure CallToolResult where
  content : List ContentBlock
  isError : Bool
  deriving Repr

/-- Modelled from the spec: the failure modes of Session.callTool, whose
implementation (the mcp library's ClientSession) is not part of this
repository's sources.  Spec section 4.2: callTool "fails with
ToolExecutionError if the remote side reports an error, with TimeoutError if
no response arrives within a bounded wait, with SessionClosedError if the
session closes while waiting". -/
inductive SessionError where
  | toolExecutionError
  | timeoutError
  | sessionClosedError
  deriving Repr, DecidableEq

/-- Modelled from the spec: the Session collaborator (the mcp library's
ClientSession, not part of this repository's sources).  It answers
list_tools with a tool catalog and call_tool with either a result payload or
a raised SessionError per spec section 4.2. -/
structure Session where
  tools : List Tool
  callTool : String → Json → Except SessionError CallToolResult

/-- The exceptions process_query and its callees can raise:
json.JSONDecodeError from json.loads, IndexError from indexing an empty
list, a SessionError propagating out of call_tool, and ValueError from
configuration handling. -/
inductive PyError where
  | jsonDecodeError (s : String)
  | indexError
  | fromSession (e : SessionError)
  | valueError (msg : String)
  deriving Repr, DecidableEq

/-- A record of one chat-completion API call: the messages passed and the
tools argument (none when no tools parameter was passed, as in the second
call at main.py lines 136-139). -/
structure ModelCallRecord where
  messages : List ChatMessage
  tools : Option (List RenderedTool)
  deriving Repr

/-- The observable trace of one process_query run: how many times
session.list_tools was called, the chat-completion calls made, and the
(name, decoded arguments) pairs sent to session.call_tool. -/
structure Trace where
  listToolsCalls : Nat
  modelCalls : List ModelCallRecord
  toolCallsMade : List (String × Json)
  deriving Repr

/-- The user turn appended at main.py line 95. -/
def userTurn (query : String) : ChatMessage :=
  { role := Role.user, content := some query, tool_calls := [], tool_call_id := none }

/-- The tool-result turn appended at main.py lines 129-133: role "tool",
content the forwarded text, tool_call_id the request's correlation token. -/
def toolResultTurn (text id : String) : ChatMessage :=
  { role := Role.tool, content := some text, tool_calls := [], tool_call_id := some id }

/-- The outcome of one process_query run: the returned answer (or the
exception that propagated) together with the trace of external calls. -/
structure QueryRun where
  answer : Except PyError (Option String)
  trace : Trace
  deriving Repr

/-- MCPClient.process_query (main.py lines 91-142), with the external
collaborators as parameters: jsonLoads embeds json.loads (none = raise
JSONDecodeError), complete embeds self.client.chat.completions.create
(returning response.choices[0]), session embeds self.session.

Control flow of the source: build messages = [user turn]; fetch the tool
catalog via list_tools and render it; call the chat API with messages and
tools; if finish_reason is "tool_calls", take tool_calls[0], JSON-decode its
arguments, call session.call_tool, append the model message and a tool
turn carrying result.content[0].text and the request's id, call the chat
API again without tools, and return that reply's content; otherwise return
the first reply's content. -/
def process_query (jsonLoads : String → Option Json)
    (complete : List ChatMessage → Option (List RenderedTool) → Choice)
    (session : Session) (query : String) : QueryRun :=
  let messages : List ChatMessage := [userTurn query]
  let available_tools : List RenderedTool := session.tools.map renderTool
  let content : Choice := complete messages (some available_tools)
  if content.finish_reason = "tool_calls" then
    match content.message.tool_calls with
    | [] =>
        { answer := Except.error PyError.indexError,
          trace := { listToolsCalls := 1,
                     modelCalls := [⟨messages, some available_tools⟩],
                     toolCallsMade := [] } }
    | tool_call :: _rest =>
        match jsonLoads tool_call.function.arguments with
        | none =>
            { answer := Except.error (PyError.jsonDecodeError tool_call.function.arguments),
              trace := { listToolsCalls := 1,
                         modelCalls := [⟨messages, some available_tools⟩],
                         toolCallsMade := [] } }
        | some tool_args =>
            match session.callTool tool_call.function.name tool_args with
            | Except.error e =>
                { answer := Except.error (PyError.fromSession e),
                  trace := { listToolsCalls := 1,
                             modelCalls := [⟨messages, some available_tools⟩],
                             toolCallsMade := [(tool_call.function.name, tool_args)] } }
            | Except.ok result =>
                match result.content with
                | [] =>
                    { answer := Except.error PyError.indexError,
                      trace := { listToolsCalls := 1,
                                 modelCalls := [⟨messages, some available_tools⟩],
                                 toolCallsMade := [(tool_call.function.name, tool_args)] } }
                | block :: _blocks =>
                    let messages2 := messages ++
                      [content.message, toolResultTurn block.text tool_call.id]
                    let response2 := complete messages2 none
                    { answer := Except.ok response2.message.content,
                      trace := { listToolsCalls := 1,
                                 modelCalls := [⟨messages, some available_tools⟩,
                                                ⟨messages2, none⟩],
                                 toolCallsMade := [(tool_call.function.name, tool_args)] } }
  else
    { answer := Except.ok content.message.content,
      trace := { listToolsCalls := 1,
                 modelCalls := [⟨messages, some available_tools⟩],
                 toolCallsMade := [] } }

/-- The two async contexts entered on self.exit_stack by connect_to_server
(main.py lines 79-81): the stdio transport, then the ClientSession. -/
inductive Resource where
  | transport
  | session
  deriving Repr, DecidableEq

/-- The state of self.exit_stack (contextlib.AsyncExitStack): the entered
contexts in acquisition order (most recently entered last). -/
abbrev ExitStack := List Resource

/-- exit_stack.enter_async_context: pushes a newly acquired context onto the
release stack. -/
def enterContext (st : ExitStack) (r : Resource) : ExitStack := st ++ [r]

/-- The exit stack after connect_to_server (main.py lines 79-81): the
transport is entered first, the session after it on the same stack. -/
def connectStack : ExitStack :=
  enterContext (enterContext [] Resource.transport) Resource.session

/-- The outcome of one exit_stack.aclose() (MCPClient.cleanup, main.py
lines 162-164): which resources were released and in what order, the stack
that remains afterwards, and the exception the unwind re-raises, if any. -/
structure CleanupRun where
  closed : List Resource
  remaining : ExitStack
  raised : Option PyError
  deriving Repr

/-- AsyncExitStack.aclose as invoked by MCPClient.cleanup: unwinds every
entered context in reverse (last-in-first-out) order, leaves the stack
empty, and re-raises the exception of the outermost failing release
callback (closeFail gives each resource's release outcome), if any. -/
def cleanup (closeFail : Resource → Option PyError) (st : ExitStack) : CleanupRun :=
  { closed := st.reverse, remaining := [],
    raised := (st.reverse.filterMap closeFail).getLast? }

/-- Python try/finally semantics, as in main (main.py lines 166-172): if the
finally block raises, that exception propagates and replaces the in-flight
body exception; otherwise the body's outcome stands. -/
def tryFinally (body : Except PyError Unit) (finallyRaised : Option PyError) :
    Except PyError Unit :=
  match finallyRaised with
  | some e => Except.error e
  | none => body

/-- The observable outcome of main (main.py lines 166-172) for a run in
which connect_to_server succeeded: the release order performed by the
finally-block cleanup and the outcome main propagates. -/
structure MainRun where
  closed : List Resource
  result : Except PyError Unit
  deriving Repr

/-- main (main.py lines 166-172) after a successful connect_to_server:
runs the body (chat loop) to bodyOutcome, then in the finally block calls
cleanup on the connect-time exit stack; per Python semantics a cleanup
exception replaces the body's. -/
def mainRun (bodyOutcome : Except PyError Unit)
    (closeFail : Resource → Option PyError) : MainRun :=
  let c := cleanup closeFail connectStack
  { closed := c.closed, result := tryFinally bodyOutcome c.raised }

/-- The loaded config.json, restricted to what connect_to_server reads: the
mcpServers mapping as an insertion-ordered association list (absent is
embedded as the empty list, matching config.get with default empty dict at
main.py line 47). -/
structure Config where
  mcpServers : List (String × Json)
  deriving Repr

/-- MCPClient.get_server_name_and_config (main.py lines 44-53): if the
mcpServers mapping is absent or empty, the inner ValueError is raised,
caught by the blanket except, and re-raised wrapped in a new ValueError;
otherwise the first entry of the mapping is returned. -/
def get_server_name_and_config (config : Config) : Except PyError (String × Json) :=
  match config.mcpServers with
  | [] => Except.error (PyError.valueError
      ("❌ 获取服务器名称和配置失败: " ++ "❌ 配置文件中未找到 MCP 服务器配置"))
  | entry :: _rest => Except.ok entry

/-- The outcome of MCPClient.connect_to_server (main.py lines 55-83),
restricted to server selection and context acquisition: the exit stack it
leaves behind and the selected (name, config) entry or the propagated
exception. -/
structure ConnectRun where
  stack : ExitStack
  result : Except PyError (String × Json)
  deriving Repr

/-- MCPClient.connect_to_server (main.py lines 55-83): first
get_server_name_and_config; if that raises, the exception propagates before
any context is entered (the exit stack stays empty and no connection is
attempted); otherwise the stdio transport and then the session are entered
on the exit stack. -/
def connect_to_server (config : Config) : ConnectRun :=
  match get_server_name_and_config config with
  | Except.error e => { stack := [], result := Except.error e }
  | Except.ok entry => { stack := connectStack, result := Except.ok entry }

/- Concrete fixtures used by the witness theorems. -/

/-- A concrete tool catalog entry. -/
def toolEcho : Tool :=
  { name := "echo", description := "echoes its arguments", inputSchema := Json.obj [] }

/-- A concrete decoded-arguments value. -/
def argsW : Json := Json.obj [("x", Json.num 1)]

/-- A json.loads collaborator that decodes every string to argsW. -/
def jlSome : String → Option Json := fun _ => some argsW

/-- A json.loads collaborator that rejects every string. -/
def jlNone : String → Option Json := fun _ => none

/-- A concrete session whose call_tool succeeds with one text block. -/
def sessOk : Session :=
  { tools := [toolEcho],
    callTool := fun _ _ =>
      Except.ok { content := [{ text := "tool output" }], isError := false } }

/-- A concrete session whose call_tool succeeds with an error-indicating
result carrying the error text in its first content block. -/
def sessErrResult : Session :=
  { tools := [toolEcho],
    callTool := fun _ _ =>
      Except.ok { content := [{ text := "error: table not found" }], isError := true } }

/-- A concrete session whose call_tool succeeds with an empty content list. -/
def sessEmpty : Session :=
  { tools := [toolEcho],
    callTool := fun _ _ => Except.ok { content := [], isError := false } }

/-- A concrete session whose call_tool raises the given failure. -/
def sessRaise (e : SessionError) : Session :=
  { tools := [toolEcho], callTool := fun _ _ => Except.error e }

/-- A concrete first-reply tool-invocation request. -/
def tcEcho : ToolCall :=
  { id := "call-1", function := { name := "echo", arguments := "raw-args" } }

/-- A concrete model reply requesting one tool invocation. -/
def choiceTool : Choice :=
  { finish_reason := "tool_calls",
    message := { role := Role.assistant, content := none,
                 tool_calls := [tcEcho], tool_call_id := none } }

/-- A concrete plain-text model reply. -/
def choiceFinal : Choice :=
  { finish_reason := "stop",
    message := { role := Role.assistant, content := some "final answer",
                 tool_calls := [], tool_call_id := none } }

/-- A concrete model collaborator: requests a tool on the first (tools
passed) call and answers in plain text on the follow-up (no tools) call. -/
def completeW : List ChatMessage → Option (List RenderedTool) → Choice :=
  fun _ tools =>
    match tools with
    | some _ => choiceTool
    | none => choiceFinal

/-- A concrete model collaborator that always answers in plain text. -/
def completePlain : List ChatMessage → Option (List RenderedTool) → Choice :=
  fun _ _ => choiceFinal

/-- A concrete release-failure behaviour: stopping the transport raises,
closing the session succeeds. -/
def closeFailTransport : Resource → Option PyError :=
  fun r =>
    match r with
    | Resource.transport => some (PyError.valueError "transport stop failed")
    | Resource.session => none

/-- A concrete two-server configuration. -/
def cfgTwo : Config :=
  { mcpServers := [("s1", Json.str "one"), ("s2", Json.str "two")] }

/-- A concrete configuration with an absent (empty) mcpServers mapping. -/
def cfgEmpty : Config := { mcpServers := [] }

/-- C6: on every exit path of main, teardown closes the session first and
then stops the transport, in that order, leaving the release stack empty;
this order is forced by the session being entered on the exit stack after
the transport. -/
theorem c6_teardown_order (bodyOutcome : Except PyError Unit)
    (closeFail : Resource → Option PyError) :
    connectStack = [Resource.transport, Resource.session] ∧
    (mainRun bodyOutcome closeFail).closed = [Resource.session, Resource.transport] ∧
    (cleanup closeFail connectStack).remaining = [] :=
  ⟨rfl, rfl, rfl⟩

/-- C8: teardown is idempotent: a second cleanup, after a first cleanup of
any exit-stack state whatsoever, releases nothing and raises nothing. -/
theorem c8_cleanup_idempotent (closeFail : Resource → Option PyError) (st : ExitStack) :
    cleanup closeFail (cleanup closeFail st).remaining =
      { closed := [], remaining := [], raised := none } :=
  rfl

/-- C7 fails on the code: with a primary query-loop error and a teardown
that fails while stopping the transport, main propagates the teardown error
instead of the primary error (Python finally semantics). -/
theorem c7_counterexample_finally_masks :
    (mainRun (Except.error (PyError.valueError "primary query loop error"))
        closeFailTransport).result
      = Except.error (PyError.valueError "transport stop failed") ∧
    PyError.valueError "transport stop failed"
      ≠ PyError.valueError "primary query loop error" :=
  ⟨rfl, by decide⟩

/-- C7 amended: when teardown raises, the teardown error is the one
propagated to the caller of main, replacing any primary error from the
query loop; only when teardown succeeds does the primary outcome stand. -/
theorem c7_teardown_error_replaces_primary
    (bodyOutcome : Except PyError Unit) (closeFail : Resource → Option PyError) :
    (∀ e2, (cleanup closeFail connectStack).raised = some e2 →
      (mainRun bodyOutcome closeFail).result = Except.error e2) ∧
    ((cleanup closeFail connectStack).raised = none →
      (mainRun bodyOutcome closeFail).result = bodyOutcome) := by
  constructor
  · intro e2 h
    simp [mainRun, tryFinally, h]
  · intro h
    simp [mainRun, tryFinally, h]

/-- Witness for the amended C7, at a concrete failing teardown. -/
theorem c7_amended_witness :
    (cleanup closeFailTransport connectStack).raised
      = some (PyError.valueError "transport stop failed") ∧
    (mainRun (Except.error (PyError.valueError "primary query loop error"))
        closeFailTransport).result
      = Except.error (PyError.valueError "transport stop failed") :=
  ⟨rfl, (c7_teardown_error_replaces_primary
    (Except.error (PyError.valueError "primary query loop error"))
    closeFailTransport).1 (PyError.valueError "transport stop failed") rfl⟩

/-- C10: server selection uses only the first entry of the mcpServers
mapping; with at least one server the first entry's name and config are
returned and the rest are ignored, while an absent or empty mapping raises
a ValueError before any context is entered. -/
theorem c10_first_server_entry (config : Config) :
    (∀ n c rest, config.mcpServers = (n, c) :: rest →
      get_server_name_and_config config = Except.ok (n, c) ∧
      (connect_to_server config).result = Except.ok (n, c) ∧
      (connect_to_server config).stack = connectStack) ∧
    (config.mcpServers = [] →
      (∃ msg, get_server_name_and_config config = Except.error (PyError.valueError msg)) ∧
      (connect_to_server config).stack = []) := by
  constructor
  · intro n c rest h
    refine ⟨?_, ?_, ?_⟩ <;> simp [get_server_name_and_config, connect_to_server, h]
  · intro h
    constructor
    · exact ⟨"❌ 获取服务器名称和配置失败: " ++ "❌ 配置文件中未找到 MCP 服务器配置",
        by simp [get_server_name_and_config, h]⟩
    · simp [connect_to_server, get_server_name_and_config, h]

/-- Witness for C10, at a concrete two-server and a concrete empty config. -/
theorem c10_witness :
    (get_server_name_and_config cfgTwo = Except.ok ("s1", Json.str "one") ∧
      (connect_to_server cfgTwo).result = Except.ok ("s1", Json.str "one")) ∧
    ((∃ msg, get_server_name_and_config cfgEmpty = Except.error (PyError.valueError msg)) ∧
      (connect_to_server cfgEmpty).stack = []) := by
  constructor
  · have h := (c10_first_server_entry cfgTwo).1 "s1" (Json.str "one")
      [("s2", Json.str "two")] rfl
    exact ⟨h.1, h.2.1⟩
  · exact (c10_first_server_entry cfgEmpty).2 rfl

/-- Path-insensitive trace facts about process_query, by case analysis on
every branch of its control flow: the tool catalog is fetched once, the
first model call receives the single-user-turn history with the rendered
catalog, and at most one tool call is made. -/
theorem process_query_trace_invariants
    (jl : String → Option Json)
    (complete : List ChatMessage → Option (List RenderedTool) → Choice)
    (s : Session) (q : String) :
    (process_query jl complete s q).trace.listToolsCalls = 1 ∧
    (process_query jl complete s q).trace.modelCalls.head? =
      some ⟨[userTurn q], some (s.tools.map renderTool)⟩ ∧
    (process_query jl complete s q).trace.toolCallsMade.length ≤ 1 := by
  by_cases hfr :
    (complete [userTurn q] (some (s.tools.map renderTool))).finish_reason = "tool_calls"
  · cases htc : (complete [userTurn q] (some (s.tools.map renderTool))).message.tool_calls with
    | nil => simp [process_query, hfr, htc]
    | cons tc rest =>
      cases hjl : jl tc.function.arguments with
      | none => simp [process_query, hfr, htc, hjl]
      | some args =>
        cases hcall : s.callTool tc.function.name args with
        | error e => simp [process_query, hfr, htc, hjl, hcall]
        | ok r =>
          cases hcontent : r.content with
          | nil => simp [process_query, hfr, htc, hjl, hcall, hcontent]
          | cons b bs => simp [process_query, hfr, htc, hjl, hcall, hcontent]
  · simp [process_query, hfr]

/-- C1: every process_query run makes at most one tool call; and when the
first reply requests tool invocations and the round-trip succeeds, exactly
the first requested call (its name and JSON-decoded arguments) is executed,
the model is queried exactly once more, and that follow-up reply's text is
the answer — regardless of further requests in either reply. -/
theorem c1_single_tool_roundtrip
    (jl : String → Option Json)
    (complete : List ChatMessage → Option (List RenderedTool) → Choice)
    (s : Session) (q : String) :
    (process_query jl complete s q).trace.toolCallsMade.length ≤ 1 ∧
    (∀ c tc rest args r b bs,
      complete [userTurn q] (some (s.tools.map renderTool)) = c →
      c.finish_reason = "tool_calls" →
      c.message.tool_calls = tc :: rest →
      jl tc.function.arguments = some args →
      s.callTool tc.function.name args = Except.ok r →
      r.content = b :: bs →
      (process_query jl complete s q).trace.toolCallsMade = [(tc.function.name, args)] ∧
      (process_query jl complete s q).trace.modelCalls.length = 2 ∧
      (process_query jl complete s q).answer =
        Except.ok (complete ([userTurn q] ++
          [c.message, toolResultTurn b.text tc.id]) none).message.content) := by
  constructor
  · exact (process_query_trace_invariants jl complete s q).2.2
  · intro c tc rest args r b bs hc hfr htc hjl hcall hcontent
    subst hc
    simp [process_query, hfr, htc, hjl, hcall, hcontent]

/-- Witness for C1, at a concrete one-tool session and a collaborator that
requests a tool first and then answers. -/
theorem c1_witness :
    (process_query jlSome completeW sessOk "hi").trace.toolCallsMade = [("echo", argsW)] ∧
    (process_query jlSome completeW sessOk "hi").trace.modelCalls.length = 2 ∧
    (process_query jlSome completeW sessOk "hi").answer = Except.ok (some "final answer") := by
  have h := (c1_single_tool_roundtrip jlSome completeW sessOk "hi").2
    choiceTool tcEcho [] argsW ⟨[⟨"tool output"⟩], false⟩ ⟨"tool output"⟩ []
    rfl rfl rfl rfl rfl rfl
  exact ⟨h.1, h.2.1, h.2.2⟩

/-- C2 fails on the code: a tool-execution failure raised by
Session.callTool (spec section 4.2) is not a session-closed condition, yet
process_query aborts with it — no error tool-result turn is appended and no
follow-up model call is made. -/
theorem c2_counterexample_raised_failure_aborts :
    (process_query jlSome completeW (sessRaise SessionError.toolExecutionError) "q").answer
      = Except.error (PyError.fromSession SessionError.toolExecutionError) ∧
    (process_query jlSome completeW
        (sessRaise SessionError.toolExecutionError) "q").trace.modelCalls.length = 1 ∧
    SessionError.toolExecutionError ≠ SessionError.sessionClosedError :=
  ⟨rfl, rfl, by decide⟩

/-- C2 amended: process_query installs no local recovery around the tool
call — every failure raised by Session.callTool (tool-execution, timeout,
or session-closed alike) propagates to the caller and aborts the query with
no follow-up model call; only a failure the session delivers in-band as a
tool result is forwarded (its first content block's text becomes the
tool-result turn) and answered by a second model call. -/
theorem c2_tool_failure_policy
    (jl : String → Option Json)
    (complete : List ChatMessage → Option (List RenderedTool) → Choice)
    (s : Session) (q : String) (c : Choice) (tc : ToolCall)
    (rest : List ToolCall) (args : Json)
    (hc : complete [userTurn q] (some (s.tools.map renderTool)) = c)
    (hfr : c.finish_reason = "tool_calls")
    (htc : c.message.tool_calls = tc :: rest)
    (hjl : jl tc.function.arguments = some args) :
    (∀ e, s.callTool tc.function.name args = Except.error e →
      (process_query jl complete s q).answer = Except.error (PyError.fromSession e) ∧
      (process_query jl complete s q).trace.modelCalls.length = 1) ∧
    (∀ r b bs, s.callTool tc.function.name args = Except.ok r → r.content = b :: bs →
      (process_query jl complete s q).answer =
        Except.ok (complete ([userTurn q] ++
          [c.message, toolResultTurn b.text tc.id]) none).message.content ∧
      (process_query jl complete s q).trace.modelCalls.length = 2) := by
  subst hc
  constructor
  · intro e hcall
    simp [process_query, hfr, htc, hjl, hcall]
  · intro r b bs hcall hcontent
    simp [process_query, hfr, htc, hjl, hcall, hcontent]

/-- Witness for the amended C2: a raised timeout aborts the query after one
model call, while an in-band error result is forwarded and answered. -/
theorem c2_amended_witness :
    ((process_query jlSome completeW (sessRaise SessionError.timeoutError) "q").answer
        = Except.error (PyError.fromSession SessionError.timeoutError) ∧
      (process_query jlSome completeW
          (sessRaise SessionError.timeoutError) "q").trace.modelCalls.length = 1) ∧
    ((process_query jlSome completeW sessErrResult "q").answer
        = Except.ok (some "final answer") ∧
      (process_query jlSome completeW sessErrResult "q").trace.modelCalls.length = 2) := by
  constructor
  · exact (c2_tool_failure_policy jlSome completeW (sessRaise SessionError.timeoutError) "q"
      choiceTool tcEcho [] argsW rfl rfl rfl rfl).1 SessionError.timeoutError rfl
  · have h := (c2_tool_failure_policy jlSome completeW sessErrResult "q"
      choiceTool tcEcho [] argsW rfl rfl rfl rfl).2
      ⟨[⟨"error: table not found"⟩], true⟩ ⟨"error: table not found"⟩ [] rfl rfl
    exact ⟨h.1, h.2⟩

/-- C3: when the first model reply requests no tool invocation, its text is
returned unchanged, exactly one model call is made and no tool is called. -/
theorem c3_plain_reply_passthrough
    (jl : String → Option Json)
    (complete : List ChatMessage → Option (List RenderedTool) → Choice)
    (s : Session) (q : String) (c : Choice)
    (hc : complete [userTurn q] (some (s.tools.map renderTool)) = c)
    (hfr : c.finish_reason ≠ "tool_calls") :
    (process_query jl complete s q).answer = Except.ok c.message.content ∧
    (process_query jl complete s q).trace.modelCalls =
      [⟨[userTurn q], some (s.tools.map renderTool)⟩] ∧
    (process_query jl complete s q).trace.toolCallsMade = [] := by
  subst hc
  simp [process_query, hfr]

/-- Witness for C3, at a concrete plain-text reply. -/
theorem c3_witness :
    (process_query jlSome completePlain sessOk "hello").answer
      = Except.ok (some "final answer") ∧
    (process_query jlSome completePlain sessOk "hello").trace.modelCalls =
      [⟨[userTurn "hello"], some (sessOk.tools.map renderTool)⟩] ∧
    (process_query jlSome completePlain sessOk "hello").trace.toolCallsMade = [] := by
  have h := c3_plain_reply_passthrough jlSome completePlain sessOk "hello"
    choiceFinal rfl (by decide)
  exact h

/-- C4: when the second model call is made, the history is exactly
[user turn, model tool-invocation turn, tool-result turn]: the tool-result
turn immediately follows the model turn it answers and carries that
request's correlation token as its tool_call_id. -/
theorem c4_history_shape
    (jl : String → Option Json)
    (complete : List ChatMessage → Option (List RenderedTool) → Choice)
    (s : Session) (q : String) (c : Choice) (tc : ToolCall)
    (rest : List ToolCall) (args : Json) (r : CallToolResult)
    (b : ContentBlock) (bs : List ContentBlock)
    (hc : complete [userTurn q] (some (s.tools.map renderTool)) = c)
    (hfr : c.finish_reason = "tool_calls")
    (htc : c.message.tool_calls = tc :: rest)
    (hjl : jl tc.function.arguments = some args)
    (hcall : s.callTool tc.function.name args = Except.ok r)
    (hcontent : r.content = b :: bs) :
    (process_query jl complete s q).trace.modelCalls =
      [⟨[userTurn q], some (s.tools.map renderTool)⟩,
       ⟨[userTurn q, c.message, toolResultTurn b.text tc.id], none⟩] ∧
    (toolResultTurn b.text tc.id).tool_call_id = some tc.id ∧
    (toolResultTurn b.text tc.id).role = Role.tool := by
  subst hc
  refine ⟨?_, rfl, rfl⟩
  simp [process_query, hfr, htc, hjl, hcall, hcontent]

/-- Witness for C4, at a concrete tool-using run. -/
theorem c4_witness :
    (process_query jlSome completeW sessOk "hi").trace.modelCalls =
      [⟨[userTurn "hi"], some (sessOk.tools.map renderTool)⟩,
       ⟨[userTurn "hi", choiceTool.message, toolResultTurn "tool output" "call-1"], none⟩] ∧
    (toolResultTurn "tool output" "call-1").tool_call_id = some "call-1" ∧
    (toolResultTurn "tool output" "call-1").role = Role.tool := by
  have h := c4_history_shape jlSome completeW sessOk "hi" choiceTool tcEcho [] argsW
    ⟨[⟨"tool output"⟩], false⟩ ⟨"tool output"⟩ [] rfl rfl rfl rfl rfl rfl
  exact h

/-- C5: every process_query run fetches the tool catalog from the session
exactly once, and the first model call receives the full turn history
together with that catalog rendered one callable-function descriptor per
tool, each carrying exactly the tool's name, description and input
schema. -/
theorem c5_fresh_catalog_first_call
    (jl : String → Option Json)
    (complete : List ChatMessage → Option (List RenderedTool) → Choice)
    (s : Session) (q : String) :
    (process_query jl complete s q).trace.listToolsCalls = 1 ∧
    (process_query jl complete s q).trace.modelCalls.head? =
      some ⟨[userTurn q], some (s.tools.map renderTool)⟩ ∧
    ∀ t : Tool, renderTool t =
      { callableType := "function", name := t.name, description := t.description,
        input_schema := t.inputSchema } :=
  ⟨(process_query_trace_invariants jl complete s q).1,
   (process_query_trace_invariants jl complete s q).2.1,
   fun _ => rfl⟩

/-- C9: on the tool-calling path, only the first content block's text is
forwarded to the model; malformed tool-call arguments abort the query
before any tool is invoked, and an empty tool-result content list aborts it
after the single tool call but before any answer is produced. -/
theorem c9_first_block_only_and_failure_paths
    (jl : String → Option Json)
    (complete : List ChatMessage → Option (List RenderedTool) → Choice)
    (s : Session) (q : String) (c : Choice) (tc : ToolCall) (rest : List ToolCall)
    (hc : complete [userTurn q] (some (s.tools.map renderTool)) = c)
    (hfr : c.finish_reason = "tool_calls")
    (htc : c.message.tool_calls = tc :: rest) :
    (jl tc.function.arguments = none →
      (process_query jl complete s q).answer =
        Except.error (PyError.jsonDecodeError tc.function.arguments) ∧
      (process_query jl complete s q).trace.toolCallsMade = []) ∧
    (∀ args r, jl tc.function.arguments = some args →
      s.callTool tc.function.name args = Except.ok r → r.content = [] →
      (process_query jl complete s q).answer = Except.error PyError.indexError ∧
      (process_query jl complete s q).trace.modelCalls.length = 1) ∧
    (∀ args r b bs, jl tc.function.arguments = some args →
      s.callTool tc.function.name args = Except.ok r → r.content = b :: bs →
      (process_query jl complete s q).trace.modelCalls.getLast? =
        some ⟨[userTurn q, c.message, toolResultTurn b.text tc.id], none⟩) := by
  subst hc
  refine ⟨?_, ?_, ?_⟩
  · intro hjl
    simp [process_query, hfr, htc, hjl]
  · intro args r hjl hcall hcontent
    simp [process_query, hfr, htc, hjl, hcall, hcontent]
  · intro args r b bs hjl hcall hcontent
    simp [process_query, hfr, htc, hjl, hcall, hcontent]

/-- Witness for C9: malformed arguments abort before any tool call, and an
empty result content list aborts before any answer. -/
theorem c9_witness :
    ((process_query jlNone completeW sessOk "q").answer
        = Except.error (PyError.jsonDecodeError "raw-args") ∧
      (process_query jlNone completeW sessOk "q").trace.toolCallsMade = []) ∧
    ((process_query jlSome completeW sessEmpty "q").answer
        = Except.error PyError.indexError ∧
      (process_query jlSome completeW sessEmpty "q").trace.modelCalls.length = 1) := by
  constructor
  · exact (c9_first_block_only_and_failure_paths jlNone completeW sessOk "q"
      choiceTool tcEcho [] rfl rfl rfl).1 rfl
  · exact (c9_first_block_only_and_failure_paths jlSome completeW sessEmpty "q"
      choiceTool tcEcho [] rfl rfl rfl).2.1 argsW ⟨[], false⟩ rfl rfl rfl

end MCP
